import Mathlib

/-!
Verification of the core algorithms of the self-initiated research agent:
source scoring and ranking (`src/research/ranker.py`), the gap-aware
confidence policy (`src/agent/decision.py`), search deduplication and the
per-question source cap (`src/research/search.py`), content extraction
frame effects (`src/research/extractor.py`), and session creation
(`src/models/session.py`).  Python floats are modelled as rationals,
datetimes as integer day counts, and in-place mutation as record update.
-/

namespace Agent

/-! ### String helpers

Python's `needle in hay` substring test, `str.strip`, `str.lower` and
`str.rfind` are modelled over `List Char`. -/

/-- Does `pre` occur at the head of `l`?  (Python `str.startswith`.) -/
def starts_with : List Char → List Char → Bool
  | [], _ => true
  | _ :: _, [] => false
  | a :: as, b :: bs => a == b && starts_with as bs

/-- Does `needle` occur contiguously anywhere inside `l`?
(Python's `needle in hay` for strings.) -/
def has_sub (needle : List Char) : List Char → Bool
  | [] => needle.isEmpty
  | c :: t => starts_with needle (c :: t) || has_sub needle t

/-- Python `needle in hay` on strings. -/
def str_in (needle hay : String) : Bool := has_sub needle.data hay.data

/-- Python `str.lower` (per-character lowercasing). -/
def to_lower (s : String) : String := String.mk (s.data.map Char.toLower)

/-- Python `str.strip()`: drop leading and trailing whitespace. -/
def strip (s : String) : String :=
  String.mk (((s.data.dropWhile Char.isWhitespace).reverse.dropWhile Char.isWhitespace).reverse)

/-- Index of the last occurrence of `c` in `l`, if any (Python `str.rfind`,
with `none` standing for Python's `-1`). -/
def rfind_pos (c : Char) : List Char → Option Nat
  | [] => none
  | x :: t =>
    match rfind_pos c t with
    | some i => some (i + 1)
    | none => if x == c then some 0 else none

/-! ### Domain models (`src/models/claim.py`, `src/models/source.py`) -/

/-- `ClaimType` enum from `src/models/claim.py`. -/
inductive ClaimType where
  | benefit | risk | limitation | example | metric | practice | failure | unknown
deriving DecidableEq, Repr

/-- `Claim` dataclass from `src/models/claim.py`. -/
structure Claim where
  text : String
  source_url : String
  source_title : String
  claim_type : ClaimType := ClaimType.unknown
  confidence : ℚ := 0.8
deriving DecidableEq, Repr

/-- `Claim.is_actionable`: a claim is actionable iff its type is risk,
limitation, practice or failure. -/
def Claim.is_actionable (c : Claim) : Bool :=
  [ClaimType.risk, ClaimType.limitation, ClaimType.practice,
    ClaimType.failure].contains c.claim_type

/-- `SourceClaims` dataclass from `src/models/claim.py`. -/
structure SourceClaims where
  source_url : String
  source_title : String
  claims : List Claim := []
  extraction_error : Option String := none
deriving DecidableEq, Repr

/-- `EvidenceSummary` dataclass from `src/models/claim.py`. -/
structure EvidenceSummary where
  all_claims : List Claim := []
  claims_by_source : List SourceClaims := []
deriving DecidableEq, Repr

/-- `SourceType` enum from `src/models/source.py`. -/
inductive SourceType where
  | news | blog | research | official | social | unknown
deriving DecidableEq, Repr

/-- `Source` dataclass from `src/models/source.py`.  `published_date` is a
day count (datetimes are modelled at day granularity, matching the
`.days` arithmetic in the ranker). -/
structure Source where
  url : String
  title : String
  snippet : String
  sub_question : String
  published_date : Option ℤ := none
  domain : String := ""
  source_type : SourceType := SourceType.unknown
  content : String := ""
  claims : List Claim := []
  credibility_score : ℚ := 0.0
deriving DecidableEq, Repr

/-- `Source._extract_domain`: netloc of the url (text between `"//"` and the
next `/`, `?` or `#`), with a leading `"www."` stripped; empty when the url
has no `"//"` (as with `urllib.parse.urlparse`). -/
def extract_domain (url : String) : String :=
  let cs := url.data
  let rec after_marker : List Char → List Char
    | [] => []
    | c :: t => if starts_with "//".data (c :: t) then (c :: t).drop 2 else after_marker t
  let netloc := (after_marker cs).takeWhile fun c => !(c == '/' || c == '?' || c == '#')
  let netloc := if starts_with "www.".data netloc then netloc.drop 4 else netloc
  String.mk netloc

/-! ### Source ranker (`src/research/ranker.py`) -/

/-- `TIER_1_DOMAINS` from `src/research/ranker.py`. -/
def TIER_1_DOMAINS : List String :=
  ["engineering.fb.com", "engineering.linkedin.com", "netflixtechblog.com",
   "uber.com", "blog.google", "aws.amazon.com", "cloud.google.com",
   "azure.microsoft.com", "openai.com", "anthropic.com", "deepmind.com",
   "stripe.com", "shopify.engineering", "github.blog", "slack.engineering",
   "arxiv.org", "acm.org", "ieee.org", "nature.com", "science.org",
   "nytimes.com", "wsj.com", "economist.com", "ft.com",
   "gartner.com", "mckinsey.com", "hbr.org", "forrester.com"]

/-- `TIER_2_DOMAINS` from `src/research/ranker.py`. -/
def TIER_2_DOMAINS : List String :=
  ["techcrunch.com", "wired.com", "arstechnica.com", "theverge.com",
   "thenewstack.io", "infoq.com", "zdnet.com", "venturebeat.com",
   "stackoverflow.blog", "dev.to", "hackernoon.com", "dzone.com",
   "medium.com"]

/-- `LOW_CREDIBILITY_PATTERNS` from `src/research/ranker.py`. -/
def LOW_CREDIBILITY_PATTERNS : List String :=
  ["top 10", "top 5", "best of",
   "beginners", "101", "ultimate guide",
   "seo", "marketing", "affiliate"]

/-- `SourceScore` dataclass from `src/research/ranker.py`. -/
structure SourceScore where
  source : Source
  recency_score : ℚ := 0.0
  credibility_score : ℚ := 0.0
  evidence_score : ℚ := 0.0
  claim_score : ℚ := 0.0
  total_score : ℚ := 0.0
  rank : Nat := 0
  justification : String := ""
  claims : List Claim := []
deriving DecidableEq, Repr

/-- `RankingResult` dataclass from `src/research/ranker.py`. -/
structure RankingResult where
  ranked_sources : List SourceScore
  top_sources_justification : String
deriving DecidableEq, Repr

/-- `RankingResult.top_3`. -/
def RankingResult.top_3 (r : RankingResult) : List SourceScore :=
  r.ranked_sources.take 3

/-- `SourceRanker.WEIGHT_RECENCY`. -/
def WEIGHT_RECENCY : ℚ := 0.25
/-- `SourceRanker.WEIGHT_CREDIBILITY`. -/
def WEIGHT_CREDIBILITY : ℚ := 0.35
/-- `SourceRanker.WEIGHT_EVIDENCE`. -/
def WEIGHT_EVIDENCE : ℚ := 0.25
/-- `SourceRanker.WEIGHT_CLAIMS`. -/
def WEIGHT_CLAIMS : ℚ := 0.15
/-- `SourceRanker.OPTIMAL_AGE_MONTHS`. -/
def OPTIMAL_AGE_MONTHS : ℚ := 6
/-- `SourceRanker.MAX_AGE_MONTHS`. -/
def MAX_AGE_MONTHS : ℚ := 24

/-- `SourceRanker._score_recency`.  `now` is today's day count; the age in
months is `age.days / 30` as in the Python code. -/
def score_recency (now : ℤ) (source : Source) : ℚ :=
  match source.published_date with
  | none => 0.5
  | some d =>
    let age_months : ℚ := ((now - d : ℤ) : ℚ) / 30
    if age_months ≤ OPTIMAL_AGE_MONTHS then 1.0
    else if age_months ≥ MAX_AGE_MONTHS then 0.2
    else
      let range_months := MAX_AGE_MONTHS - OPTIMAL_AGE_MONTHS
      let position := (age_months - OPTIMAL_AGE_MONTHS) / range_months
      1.0 - position * 0.8

/-- `SourceRanker._score_credibility`. -/
def score_credibility (source : Source) : ℚ :=
  let domain := to_lower source.domain
  let url_lower := to_lower source.url
  let title_lower := to_lower source.title
  if LOW_CREDIBILITY_PATTERNS.any (fun p => str_in p title_lower) then 0.2
  else if TIER_1_DOMAINS.any (fun t1 => str_in t1 domain || str_in t1 url_lower) then 1.0
  else if TIER_2_DOMAINS.any (fun t2 => str_in t2 domain || str_in t2 url_lower) then 0.7
  else if str_in "engineering" url_lower || str_in "techblog" url_lower then 0.8
  else if str_in "blog" url_lower then 0.5
  else 0.4

/-- A position in `l` where the regex `\d+%|\d+\s*percent` matches: a digit
run followed by `%`, or by optional whitespace and `percent`. -/
def percent_at (l : List Char) : Bool :=
  match l with
  | [] => false
  | c :: _ =>
    if c.isDigit then
      let rest := l.dropWhile Char.isDigit
      match rest with
      | '%' :: _ => true
      | _ => starts_with "percent".data (rest.dropWhile Char.isWhitespace)
    else false

/-- Whether `re.search` with pattern `\d+%|\d+\s*percent` finds a match. -/
def scan_percent : List Char → Bool
  | [] => false
  | c :: t => percent_at (c :: t) || scan_percent t

/-- `SourceRanker._score_evidence`. -/
def score_evidence (source : Source) (claims : List Claim) : ℚ :=
  let has_metric := claims.any fun c => decide (c.claim_type = ClaimType.metric)
  let has_example := claims.any fun c => decide (c.claim_type = ClaimType.example)
  let has_failure := claims.any fun c => decide (c.claim_type = ClaimType.failure)
  let score : ℚ := 0.0
  let score := if has_metric then score + 0.4 else score
  let score := if has_example then score + 0.3 else score
  let score := if has_failure then score + 0.3 else score
  let content := to_lower source.content
  let score := if scan_percent content.data then score + 0.1 else score
  let score :=
    if str_in "case study" content || str_in "real-world" content then score + 0.1 else score
  min score 1.0

/-- `SourceRanker._score_claims`. -/
def score_claims (claims : List Claim) : ℚ :=
  if claims.isEmpty then 0.3
  else
    let count := claims.length
    let count_score : ℚ := if count ≥ 5 then 1.0 else if count ≥ 3 then 0.8 else 0.5
    let actionable := claims.countP fun c => c.is_actionable
    let actionable_frac : ℚ :=
      if claims.isEmpty then 0 else (actionable : ℚ) / (claims.length : ℚ)
    count_score * 0.6 + actionable_frac * 0.4

/-- `SourceRanker._source_justification`. -/
def source_justification (recency credibility evidence claims : ℚ)
    (_source : Source) : String :=
  let reasons : List String :=
    if credibility ≥ 0.8 then ["reputable source"]
    else if credibility ≥ 0.6 then ["known outlet"]
    else []
  let reasons := reasons ++
    (if recency ≥ 0.8 then ["recent"]
     else if recency ≤ 0.3 then ["older source"]
     else [])
  let reasons := reasons ++ (if evidence ≥ 0.7 then ["data-rich"] else [])
  let reasons := reasons ++ (if claims ≥ 0.7 then ["many insights"] else [])
  let reasons := if reasons.isEmpty then ["general coverage"] else reasons
  String.intercalate ", " reasons

/-- `SourceRanker._score_source`: the four sub-scores, their weighted total,
and the per-source justification, bundled in a fresh `SourceScore`. -/
def score_source (now : ℤ) (source : Source) (claims : List Claim) : SourceScore :=
  let recency := score_recency now source
  let credibility := score_credibility source
  let evidence := score_evidence source claims
  let claim_score := score_claims claims
  let total :=
    recency * WEIGHT_RECENCY +
    credibility * WEIGHT_CREDIBILITY +
    evidence * WEIGHT_EVIDENCE +
    claim_score * WEIGHT_CLAIMS
  { source := source
    recency_score := recency
    credibility_score := credibility
    evidence_score := evidence
    claim_score := claim_score
    total_score := total
    justification := source_justification recency credibility evidence claim_score source
    claims := claims }

/-- `SourceRanker._generate_justification`. -/
def generate_justification (top_sources : List SourceScore) : String :=
  if top_sources.isEmpty then "No sources to rank."
  else
    String.intercalate "\n"
      ("Top sources ranked by:" ::
        top_sources.map fun s => "  • " ++ s.source.domain ++ ": " ++ s.justification)

/-- The descending-score comparison used by `scored_sources.sort(key=...,
reverse=True)`: `a` may come before `b` iff `b`'s total score is at most
`a`'s. -/
def rank_order (a b : SourceScore) : Prop := b.total_score ≤ a.total_score

instance : DecidableRel rank_order := fun a b =>
  inferInstanceAs (Decidable (b.total_score ≤ a.total_score))

instance : IsTotal SourceScore rank_order :=
  ⟨fun a b => (le_total b.total_score a.total_score).imp id id⟩

instance : IsTrans SourceScore rank_order :=
  ⟨fun _ _ _ hab hbc => le_trans hbc hab⟩

/-- The rank-assignment loop `for i, score in enumerate(...): score.rank = i+1`,
modelled as a record update starting at rank `n`. -/
def assign_ranks (n : Nat) : List SourceScore → List SourceScore
  | [] => []
  | s :: rest => { s with rank := n } :: assign_ranks (n + 1) rest

/-- `SourceRanker.rank_sources`: score every source with its claims, sort by
descending total score (Python's stable sort), assign 1-based ranks, and
produce the aggregate justification for the top three.  `claims_by_source`
models the dict's `.get(url, [])`. -/
def rank_sources (now : ℤ) (sources : List Source)
    (claims_by_source : String → List Claim) : RankingResult :=
  let scored := sources.map fun s => score_source now s (claims_by_source s.url)
  let sorted := scored.insertionSort rank_order
  let ranked := assign_ranks 1 sorted
  { ranked_sources := ranked
    top_sources_justification := generate_justification (ranked.take 3) }

/-! ### Gap analysis records (`src/analysis/gaps.py`) -/

/-- `Unknown` dataclass from `src/analysis/gaps.py`. -/
structure Unknown where
  description : String
  importance : String
  related_claims : List String := []
deriving DecidableEq, Repr

/-- `Conflict` dataclass from `src/analysis/gaps.py`. -/
structure Conflict where
  description : String
  claim_a : String
  claim_b : String
  source_a : String
  source_b : String
deriving DecidableEq, Repr

/-- `Assumption` dataclass from `src/analysis/gaps.py`. -/
structure Assumption where
  description : String
  risk : String
deriving DecidableEq, Repr

/-- `GapAnalysisResult` dataclass from `src/analysis/gaps.py`. -/
structure GapAnalysisResult where
  original_question : String
  unknowns : List Unknown := []
  conflicts : List Conflict := []
  assumptions : List Assumption := []
deriving DecidableEq, Repr

/-- `GapAnalysisResult.total_gaps`. -/
def GapAnalysisResult.total_gaps (g : GapAnalysisResult) : Nat :=
  g.unknowns.length + g.conflicts.length + g.assumptions.length

/-- `GapAnalysisResult.has_critical_gaps`. -/
def GapAnalysisResult.has_critical_gaps (g : GapAnalysisResult) : Bool :=
  g.unknowns.any fun u => u.importance == "high"

/-! ### Decision maker (`src/agent/decision.py`) -/

/-- The disclaimer default of the `Recommendation` dataclass. -/
def DISCLAIMER : String :=
  "This analysis is for informational purposes only. " ++
  "It is not professional advice for legal, medical, or financial decisions. " ++
  "Always consult qualified professionals for important decisions."

/-- `Recommendation` dataclass from `src/agent/decision.py`.  A trade-off
dict `{pro, con}` is a string pair and a top-source dict `{title, url, why}`
a string triple. -/
structure Recommendation where
  decision : String
  confidence : String
  key_reasons : List String
  trade_offs : List (String × String)
  risks : List String
  next_steps : List String
  top_sources : List (String × String × String)
  disclaimer : String := DISCLAIMER
deriving DecidableEq, Repr

/-- The JSON object returned by the LLM for the decision prompt; absent keys
are `none` / `[]`, mirroring `response.get(key, default)`. -/
structure DecisionResponse where
  decision : Option String := none
  confidence : Option String := none
  key_reasons : List String := []
  trade_offs : List (String × String) := []
  risks : List String := []
  next_steps : List String := []
deriving DecidableEq, Repr

/-- `DecisionMaker._parse_response`: build the top-source citations, read the
LLM's confidence (defaulting to `"medium"`, lowercased), apply the
gap-aware cap, and assemble the `Recommendation`. -/
def parse_response (response : DecisionResponse) (ranking : Option RankingResult)
    (_evidence : EvidenceSummary) (gaps : Option GapAnalysisResult) : Recommendation :=
  let top_sources :=
    match ranking with
    | none => []
    | some r => r.top_3.map fun s => (s.source.title, s.source.url, s.justification)
  let confidence := to_lower (response.confidence.getD "medium")
  let confidence :=
    match gaps with
    | none => confidence
    | some g =>
      let total_gaps := g.total_gaps
      let high_importance_unknowns :=
        (g.unknowns.countP fun u => u.importance == "high")
      let conflicts := g.conflicts.length
      if confidence = "high" then
        if total_gaps ≥ 5 ∨ high_importance_unknowns ≥ 2 ∨ conflicts ≥ 2 then "medium"
        else confidence
      else confidence
  { decision := response.decision.getD "No clear recommendation could be made."
    confidence := confidence
    key_reasons := response.key_reasons.take 6
    trade_offs := response.trade_offs.take 4
    risks := response.risks.take 5
    next_steps := response.next_steps.take 5
    top_sources := top_sources }

/-! ### Session management (`src/models/session.py`) -/

/-- The validation failures `SessionManager.validate_input` can raise,
one constructor per `InputValidationError` message. -/
inductive InputValidationError where
  | empty_input
  | too_short (length : Nat)
  | too_long (length : Nat)
deriving DecidableEq, Repr

/-- `Session` dataclass from `src/models/session.py` (`created_at` is a
timestamp modelled as an integer). -/
structure Session where
  session_id : String
  question : String
  created_at : ℤ
  sub_questions : List String := []
  sources : List Source := []
  claims : List Claim := []
  gaps : List String := []
  clarifications : List String := []
  recommendation : Option Recommendation := none
deriving DecidableEq, Repr

/-- `SessionManager.MIN_QUESTION_LENGTH`. -/
def MIN_QUESTION_LENGTH : Nat := 5
/-- `SessionManager.MAX_QUESTION_LENGTH`. -/
def MAX_QUESTION_LENGTH : Nat := 10000

/-- `SessionManager`'s state: the `sessions` dict, as an insertion-ordered
association list. -/
structure SessionManager where
  sessions : List (String × Session) := []
deriving DecidableEq, Repr

/-- Python dict assignment `d[k] = v`: replace the binding if the key is
present, otherwise append it. -/
def dict_insert (k : String) (v : Session) : List (String × Session) → List (String × Session)
  | [] => [(k, v)]
  | (k2, v2) :: rest =>
    if k2 == k then (k, v) :: rest else (k2, v2) :: dict_insert k v rest

/-- `SessionManager.validate_input`: strip whitespace, then reject empty,
too-short (< 5 chars) and too-long (> 10000 chars) questions. -/
def validate_input (question : String) : Except InputValidationError String :=
  let cleaned := strip question
  if cleaned = "" then .error .empty_input
  else if cleaned.length < MIN_QUESTION_LENGTH then .error (.too_short cleaned.length)
  else if cleaned.length > MAX_QUESTION_LENGTH then .error (.too_long cleaned.length)
  else .ok cleaned

/-- `SessionManager.create_session`: validate first; on success build the
session (with the freshly generated id and creation time, which are inputs
here) and store it; on failure the exception propagates and the manager is
untouched. -/
def create_session (mgr : SessionManager) (fresh_id : String) (now : ℤ)
    (question : String) : Except InputValidationError Session × SessionManager :=
  match validate_input question with
  | .error e => (.error e, mgr)
  | .ok cleaned =>
    let session : Session := { session_id := fresh_id, question := cleaned, created_at := now }
    (.ok session, { mgr with sessions := dict_insert fresh_id session mgr.sessions })

/-! ### Web search (`src/research/search.py`) -/

/-- `SearchConfig` from `src/research/search.py`, with the `__post_init__`
defaults filled in. -/
structure SearchConfig where
  max_results_per_query : Nat := 7
  max_total_sources : Nat := 30
  min_reputable_per_question : Nat := 2
  include_domains : List String := []
  exclude_domains : List String :=
    ["pinterest.com", "quora.com", "reddit.com", "facebook.com",
     "twitter.com", "x.com", "medium.com"]
  reputable_domains : List String :=
    ["engineering.fb.com", "engineering.linkedin.com",
     "netflixtechblog.com", "uber.com/blog", "blog.google",
     "aws.amazon.com", "cloud.google.com", "azure.microsoft.com",
     "openai.com", "anthropic.com", "deepmind.com",
     "stripe.com", "shopify.engineering", "github.blog",
     "techcrunch.com", "wired.com", "arstechnica.com",
     "theverge.com", "thenewstack.io", "infoq.com",
     "arxiv.org", "acm.org", "ieee.org",
     "hbr.org", "mckinsey.com", "gartner.com",
     "stackoverflow.blog", "martinfowler.com", "danluu.com"]
  low_quality_title_patterns : List String :=
    ["top 10", "top 5", "top 20",
     "beginner's guide", "beginners guide",
     "ultimate guide", "complete guide",
     "everything you need to know",
     "what is", "introduction to",
     "for dummies", "101",
     "you won't believe"]
deriving Repr

/-- A raw search-provider result dict with its heterogeneous optional keys
(`url`/`link`, `content`/`snippet`, `published_date`/`date`). -/
structure RawResult where
  url : Option String := none
  link : Option String := none
  title : Option String := none
  content : Option String := none
  snippet : Option String := none
  published_date : Option String := none
  date : Option String := none
deriving DecidableEq, Repr

/-- `WebSearcher._is_valid_source`: nonempty url and title, no excluded
domain inside the url's domain, no low-quality pattern inside the
lowercased title. -/
def is_valid_source (cfg : SearchConfig) (url title : String) : Bool :=
  if url = "" || title = "" then false
  else
    let domain := extract_domain url
    if cfg.exclude_domains.any (fun ex => str_in ex domain) then false
    else if cfg.low_quality_title_patterns.any (fun p => str_in p (to_lower title)) then false
    else true

/-- `WebSearcher._is_reputable_source`. -/
def is_reputable_source (cfg : SearchConfig) (url : String) : Bool :=
  let domain := to_lower (extract_domain url)
  let url_lower := to_lower url
  cfg.reputable_domains.any (fun rep => str_in rep domain || str_in rep url_lower) ||
    str_in "engineering" url_lower || str_in "techblog" url_lower

/-- `WebSearcher._detect_source_type`. -/
def detect_source_type (domain url : String) : SourceType :=
  let domain_lower := to_lower domain
  let url_lower := to_lower url
  let news_domains := ["nytimes", "bbc", "reuters", "techcrunch", "wired",
    "theverge", "arstechnica"]
  if news_domains.any (fun nd => str_in nd domain_lower) then SourceType.news
  else if str_in "arxiv" domain_lower || str_in "acm.org" domain_lower ||
      str_in "ieee" domain_lower then SourceType.research
  else if str_in "engineering" url_lower || str_in "blog" url_lower then SourceType.blog
  else if str_in "docs." domain_lower || str_in "documentation" url_lower then
    SourceType.official
  else SourceType.unknown

/-- The classification loop of `WebSearcher.search_single`: normalize each
raw result's keys, drop invalid ones, build the `Source`, and split into
reputable and other sources in input order.  `date_parse` abstracts
`_parse_date` (its `strptime` formats are not modelled; the parsed date does
not influence any claim about search). -/
def classify_results (cfg : SearchConfig) (date_parse : String → Option ℤ)
    (sub_question : String) : List RawResult → List Source × List Source
  | [] => ([], [])
  | r :: rest =>
    let (rep, oth) := classify_results cfg date_parse sub_question rest
    let url := r.url.getD (r.link.getD "")
    let title := r.title.getD ""
    let snippet := r.content.getD (r.snippet.getD "")
    let date_str := r.published_date <|> r.date
    if is_valid_source cfg url title then
      let source : Source :=
        { url := url, title := title, snippet := snippet
          sub_question := sub_question
          published_date := date_str.bind date_parse
          domain := extract_domain url
          source_type := detect_source_type (extract_domain url) url }
      if is_reputable_source cfg url then (source :: rep, oth)
      else (rep, source :: oth)
    else (rep, oth)

/-- `SearchResults` dataclass from `src/models/source.py`. -/
structure SearchResults where
  sub_question : String
  sources : List Source := []
deriving DecidableEq, Repr

/-- `DiscoveryResults` dataclass from `src/models/source.py`
(`results_by_question` as an insertion-ordered association list). -/
structure DiscoveryResults where
  results_by_question : List (String × SearchResults) := []
  all_sources : List Source := []
deriving DecidableEq, Repr

/-- `WebSearcher.search_single`, applied to the raw results the active
client returned for the (enhanced) query: reputable sources first, then
the others, truncated to 5 sources per question. -/
def search_single (cfg : SearchConfig) (date_parse : String → Option ℤ)
    (sub_question : String) (raw_results : List RawResult) : SearchResults :=
  let (reputable_sources, other_sources) :=
    classify_results cfg date_parse sub_question raw_results
  let sources := reputable_sources ++ other_sources
  let sources := sources.take 5
  { sub_question := sub_question, sources := sources }

/-- The per-question deduplication loop of `WebSearcher.search_all`: keep
only sources whose url is not in `seen`, extending `seen` as it goes.
Returns the updated seen set and the unique sources in order. -/
def dedup_sources (seen : List String) : List Source → List String × List Source
  | [] => (seen, [])
  | s :: rest =>
    if s.url ∈ seen then dedup_sources seen rest
    else
      let (seen2, uniq) := dedup_sources (s.url :: seen) rest
      (seen2, s :: uniq)

/-- The main loop of `WebSearcher.search_all` over the sub-questions,
threading the seen-url set, the per-question results and the aggregated
source list; stops early once `max_total` sources are collected.
`single` abstracts the client: the sources `search_single` yields for each
sub-question. -/
def search_all_go (single : String → List Source) (max_total : Nat) :
    List String → List String → List (String × SearchResults) → List Source →
      List (String × SearchResults) × List Source
  | [], _, rbq, all_sources => (rbq, all_sources)
  | sq :: rest, seen, rbq, all_sources =>
    let (seen2, uniq) := dedup_sources seen (single sq)
    let all_sources2 := all_sources ++ uniq
    let rbq2 := rbq ++ [(sq, { sub_question := sq, sources := uniq })]
    if all_sources2.length ≥ max_total then (rbq2, all_sources2)
    else search_all_go single max_total rest seen2 rbq2 all_sources2

/-- `WebSearcher.search_all`: run the loop from empty state and trim the
aggregate list to `max_total_sources`. -/
def search_all (cfg : SearchConfig) (single : String → List Source)
    (sub_questions : List String) : DiscoveryResults :=
  let (rbq, all_sources) := search_all_go single cfg.max_total_sources sub_questions [] [] []
  { results_by_question := rbq
    all_sources := all_sources.take cfg.max_total_sources }

/-! ### Content extraction (`src/research/extractor.py`) -/

/-- `ExtractionResult` dataclass from `src/research/extractor.py`. -/
structure ExtractionResult where
  source : Source
  success : Bool
  content : String
  content_length : Nat
  preview : String
  error : Option String := none
  used_fallback : Bool := false
deriving DecidableEq, Repr

/-- `ContentExtractor._truncate` (default `max_content_length = 15000`):
truncate at a sentence boundary when one lies in the last fifth, else
append an ellipsis. -/
def truncate (max_content_length : Nat) (content : String) : String :=
  if content.length ≤ max_content_length then content
  else
    let truncated := String.mk (content.data.take max_content_length)
    match rfind_pos '.' truncated.data with
    | some last_period =>
      if (last_period : ℚ) > (max_content_length : ℚ) * 0.8 then
        String.mk (truncated.data.take (last_period + 1))
      else truncated ++ "..."
    | none => truncated ++ "..."

/-- `ContentExtractor._make_preview` (default `preview_length = 400`). -/
def make_preview (preview_length : Nat) (content : String) : String :=
  let preview := String.mk (content.data.take preview_length)
  if content.length > preview_length then
    let preview :=
      match rfind_pos ' ' preview.data with
      | some last_space =>
        if (last_space : ℚ) > (preview_length : ℚ) * 0.7 then
          String.mk (preview.data.take last_space)
        else preview
      | none => preview
    preview ++ "..."
  else preview

/-- `ContentExtractor._fallback_to_snippet`: when the snippet is nonempty it
becomes the source's content (a partial success), otherwise the source is
left untouched and the result is a failure. -/
def fallback_to_snippet (preview_length : Nat) (source : Source)
    (error : String) : ExtractionResult :=
  let snippet := source.snippet
  if snippet ≠ "" then
    { source := { source with content := snippet }
      success := true
      content := snippet
      content_length := snippet.length
      preview := String.mk (snippet.data.take preview_length)
      error := some error
      used_fallback := true }
  else
    { source := source
      success := false
      content := ""
      content_length := 0
      preview := ""
      error := some error
      used_fallback := true }

/-- `ContentExtractor.extract_single`.  `fetched` models the fetch plus
`_extract_text`: `.error msg` for a timeout/HTTP/other exception (with its
message) and `.ok extracted` for the extraction outcome.  Content longer
than 100 chars is truncated and written to `source.content`; anything else
falls back to the snippet. -/
def extract_single (max_content_length preview_length : Nat)
    (fetched : Except String (Option String)) (source : Source) : ExtractionResult :=
  match fetched with
  | .ok (some c) =>
    if c.length > 100 then
      let content := truncate max_content_length c
      { source := { source with content := content }
        success := true
        content := content
        content_length := content.length
        preview := make_preview preview_length content }
    else fallback_to_snippet preview_length source "Extraction returned insufficient content"
  | .ok none =>
    fallback_to_snippet preview_length source "Extraction returned insufficient content"
  | .error e => fallback_to_snippet preview_length source e

/-! ## Theorems -/

/-- Claim C3: recency sub-score.  An unknown publication date scores exactly
0.5; an age of at most 6 months scores 1.0; an age of at least 24 months
scores 0.2; strictly between, the score is `1.0 - 0.8 * (age_months - 6) / 18`;
in particular an age of exactly 15 months scores 0.6. -/
theorem score_recency_spec (now : ℤ) (s : Source) :
    (s.published_date = none → score_recency now s = 0.5) ∧
    ∀ d : ℤ, s.published_date = some d →
      (((now - d : ℤ) : ℚ) / 30 ≤ 6 → score_recency now s = 1.0) ∧
      (24 ≤ ((now - d : ℤ) : ℚ) / 30 → score_recency now s = 0.2) ∧
      (6 < ((now - d : ℤ) : ℚ) / 30 → ((now - d : ℤ) : ℚ) / 30 < 24 →
        score_recency now s = 1.0 - 0.8 * ((((now - d : ℤ) : ℚ) / 30 - 6) / 18)) ∧
      (((now - d : ℤ) : ℚ) / 30 = 15 → score_recency now s = 0.6) := by
  constructor
  · intro h
    simp [score_recency, h]
  · intro d hd
    refine ⟨?_, ?_, ?_, ?_⟩ <;> intro h1
    · simp only [score_recency, hd, OPTIMAL_AGE_MONTHS]
      rw [if_pos h1]
    · have h6 : ¬ (((now - d : ℤ) : ℚ) / 30 ≤ 6) := by linarith
      simp only [score_recency, hd, OPTIMAL_AGE_MONTHS, MAX_AGE_MONTHS]
      rw [if_neg h6, if_pos (by exact_mod_cast h1)]
    · intro h2
      have h6 : ¬ (((now - d : ℤ) : ℚ) / 30 ≤ 6) := by linarith
      have h24 : ¬ (((now - d : ℤ) : ℚ) / 30 ≥ 24) := by linarith
      simp only [score_recency, hd, OPTIMAL_AGE_MONTHS, MAX_AGE_MONTHS]
      rw [if_neg h6, if_neg h24]
      ring
    · have h6 : ¬ (((now - d : ℤ) : ℚ) / 30 ≤ 6) := by rw [h1]; norm_num
      have h24 : ¬ (((now - d : ℤ) : ℚ) / 30 ≥ 24) := by rw [h1]; norm_num
      simp only [score_recency, hd, OPTIMAL_AGE_MONTHS, MAX_AGE_MONTHS]
      rw [if_neg h6, if_neg h24, h1]
      norm_num

/-- Claim C3 witness: a source published 450 days (15 months) before `now`
scores recency 0.6. -/
theorem score_recency_spec_witness :
    score_recency 450
      { url := "u", title := "t", snippet := "", sub_question := "",
        published_date := some 0 } = 0.6 :=
  ((score_recency_spec 450 _).2 0 rfl).2.2.2 (by norm_num)

/-- Claim C4: credibility sub-score with first-match-wins order.  A
low-quality pattern in the lowercased title forces 0.2 regardless of the
domain; otherwise a tier-1 domain/url match gives 1.0; otherwise a tier-2
match gives 0.7; otherwise `"engineering"`/`"techblog"` in the url gives
0.8; otherwise `"blog"` in the url gives 0.5; otherwise 0.4. -/
theorem score_credibility_spec (s : Source) :
    ((LOW_CREDIBILITY_PATTERNS.any fun p => str_in p (to_lower s.title)) = true →
      score_credibility s = 0.2) ∧
    ((LOW_CREDIBILITY_PATTERNS.any fun p => str_in p (to_lower s.title)) = false →
      (TIER_1_DOMAINS.any fun t1 =>
        str_in t1 (to_lower s.domain) || str_in t1 (to_lower s.url)) = true →
      score_credibility s = 1.0) ∧
    ((LOW_CREDIBILITY_PATTERNS.any fun p => str_in p (to_lower s.title)) = false →
      (TIER_1_DOMAINS.any fun t1 =>
        str_in t1 (to_lower s.domain) || str_in t1 (to_lower s.url)) = false →
      (TIER_2_DOMAINS.any fun t2 =>
        str_in t2 (to_lower s.domain) || str_in t2 (to_lower s.url)) = true →
      score_credibility s = 0.7) ∧
    ((LOW_CREDIBILITY_PATTERNS.any fun p => str_in p (to_lower s.title)) = false →
      (TIER_1_DOMAINS.any fun t1 =>
        str_in t1 (to_lower s.domain) || str_in t1 (to_lower s.url)) = false →
      (TIER_2_DOMAINS.any fun t2 =>
        str_in t2 (to_lower s.domain) || str_in t2 (to_lower s.url)) = false →
      (str_in "engineering" (to_lower s.url) || str_in "techblog" (to_lower s.url)) = true →
      score_credibility s = 0.8) ∧
    ((LOW_CREDIBILITY_PATTERNS.any fun p => str_in p (to_lower s.title)) = false →
      (TIER_1_DOMAINS.any fun t1 =>
        str_in t1 (to_lower s.domain) || str_in t1 (to_lower s.url)) = false →
      (TIER_2_DOMAINS.any fun t2 =>
        str_in t2 (to_lower s.domain) || str_in t2 (to_lower s.url)) = false →
      (str_in "engineering" (to_lower s.url) || str_in "techblog" (to_lower s.url)) = false →
      str_in "blog" (to_lower s.url) = true →
      score_credibility s = 0.5) ∧
    ((LOW_CREDIBILITY_PATTERNS.any fun p => str_in p (to_lower s.title)) = false →
      (TIER_1_DOMAINS.any fun t1 =>
        str_in t1 (to_lower s.domain) || str_in t1 (to_lower s.url)) = false →
      (TIER_2_DOMAINS.any fun t2 =>
        str_in t2 (to_lower s.domain) || str_in t2 (to_lower s.url)) = false →
      (str_in "engineering" (to_lower s.url) || str_in "techblog" (to_lower s.url)) = false →
      str_in "blog" (to_lower s.url) = false →
      score_credibility s = 0.4) := by
  refine ⟨fun h1 => ?_, fun h1 h2 => ?_, fun h1 h2 h3 => ?_, fun h1 h2 h3 h4 => ?_,
    fun h1 h2 h3 h4 h5 => ?_, fun h1 h2 h3 h4 h5 => ?_⟩
  · simp [score_credibility, h1]
  · simp [score_credibility, h1, h2]
  · simp [score_credibility, h1, h2, h3]
  · simp [score_credibility, h1, h2, h3, h4]
  · simp [score_credibility, h1, h2, h3, h4, h5]
  · simp [score_credibility, h1, h2, h3, h4, h5]

/-- Claim C4 witness: a title containing "top 10" scores 0.2 even on a
tier-1 domain (arxiv.org). -/
theorem score_credibility_spec_witness :
    score_credibility
      { url := "https://arxiv.org/abs/1", title := "Top 10 AI tools", snippet := "",
        sub_question := "", domain := "arxiv.org" } = 0.2 :=
  (score_credibility_spec _).1 rfl

/-- Claim C5: a claim is actionable iff its type is risk, limitation,
practice or failure; an empty claim list scores exactly 0.3; a non-empty
list of `n` claims scores `0.6*count_score + 0.4*(actionable_count/n)` with
`count_score` 1.0 for `n ≥ 5`, 0.8 for `3 ≤ n ≤ 4` and 0.5 otherwise; and
the list `[risk, benefit, practice]` has actionable fraction 2/3. -/
theorem score_claims_spec :
    (∀ c : Claim, c.is_actionable = true ↔
      (c.claim_type = ClaimType.risk ∨ c.claim_type = ClaimType.limitation ∨
        c.claim_type = ClaimType.practice ∨ c.claim_type = ClaimType.failure)) ∧
    score_claims [] = 0.3 ∧
    (∀ claims : List Claim, claims ≠ [] →
      score_claims claims =
        0.6 * (if claims.length ≥ 5 then 1.0
               else if claims.length ≥ 3 then 0.8 else 0.5) +
        0.4 * (((claims.countP fun c => c.is_actionable) : ℚ) / (claims.length : ℚ))) ∧
    (∀ c1 c2 c3 : Claim, c1.claim_type = ClaimType.risk →
      c2.claim_type = ClaimType.benefit → c3.claim_type = ClaimType.practice →
      (([c1, c2, c3].countP fun c => c.is_actionable : ℚ) / ([c1, c2, c3].length : ℚ)
        = 2 / 3)) := by
  refine ⟨fun c => ?_, by simp [score_claims], fun claims hne => ?_, fun c1 c2 c3 h1 h2 h3 => ?_⟩
  · obtain ⟨txt, su, st, ct, conf⟩ := c
    cases ct <;> simp [Claim.is_actionable]
  · have hemp : claims.isEmpty = false := by
      cases claims with
      | nil => exact absurd rfl hne
      | cons a l => rfl
    simp only [score_claims, hemp, Bool.false_eq_true, if_false]
    ring
  · have e1 : c1.is_actionable = true := by simp [Claim.is_actionable, h1]
    have e2 : c2.is_actionable = false := by simp [Claim.is_actionable, h2]
    have e3 : c3.is_actionable = true := by simp [Claim.is_actionable, h3]
    simp [List.countP_cons, e1, e2, e3]

/-- Claim C5 witness: three concrete claims typed risk, benefit, practice
have actionable fraction 2/3, and a concrete two-element claim list scores
`0.6*0.5 + 0.4*(1/2)`. -/
theorem score_claims_spec_witness :
    ((List.countP (fun c : Claim => c.is_actionable)
        [{ text := "a", source_url := "u", source_title := "t", claim_type := ClaimType.risk },
         { text := "b", source_url := "u", source_title := "t", claim_type := ClaimType.benefit },
         { text := "c", source_url := "u", source_title := "t",
           claim_type := ClaimType.practice }] : ℚ) / (3 : ℚ) = 2 / 3) ∧
    score_claims
      [{ text := "a", source_url := "u", source_title := "t", claim_type := ClaimType.risk },
       { text := "b", source_url := "u", source_title := "t",
         claim_type := ClaimType.benefit }] =
      0.6 * 0.5 + 0.4 * ((1 : ℚ) / 2) := by
  constructor
  · exact score_claims_spec.2.2.2
      { text := "a", source_url := "u", source_title := "t", claim_type := ClaimType.risk }
      { text := "b", source_url := "u", source_title := "t", claim_type := ClaimType.benefit }
      { text := "c", source_url := "u", source_title := "t", claim_type := ClaimType.practice }
      rfl rfl rfl
  · have h := score_claims_spec.2.2.1
      [{ text := "a", source_url := "u", source_title := "t", claim_type := ClaimType.risk },
       { text := "b", source_url := "u", source_title := "t",
         claim_type := ClaimType.benefit }] (by simp)
    have hc : List.countP (fun c : Claim => c.is_actionable)
      [{ text := "a", source_url := "u", source_title := "t", claim_type := ClaimType.risk },
       { text := "b", source_url := "u", source_title := "t",
         claim_type := ClaimType.benefit }] = 1 := rfl
    rw [h, hc]
    norm_num

/-- Claim C1: gap-aware confidence capping.  For every LLM response and gap
analysis result, a proposed tier of "high" is returned as "medium" when any
of total gaps ≥ 5, high-importance unknowns ≥ 2, or conflicts ≥ 2 holds,
and stays "high" when none holds; a proposed "low" or "medium" tier is
returned unchanged. -/
theorem parse_response_confidence_spec (resp : DecisionResponse)
    (ranking : Option RankingResult) (ev : EvidenceSummary) (g : GapAnalysisResult) :
    (to_lower (resp.confidence.getD "medium") = "high" →
      (g.total_gaps ≥ 5 ∨ (g.unknowns.countP fun u => u.importance == "high") ≥ 2 ∨
        g.conflicts.length ≥ 2) →
      (parse_response resp ranking ev (some g)).confidence = "medium") ∧
    (to_lower (resp.confidence.getD "medium") = "high" →
      ¬(g.total_gaps ≥ 5 ∨ (g.unknowns.countP fun u => u.importance == "high") ≥ 2 ∨
        g.conflicts.length ≥ 2) →
      (parse_response resp ranking ev (some g)).confidence = "high") ∧
    (to_lower (resp.confidence.getD "medium") = "low" ∨
      to_lower (resp.confidence.getD "medium") = "medium" →
      (parse_response resp ranking ev (some g)).confidence =
        to_lower (resp.confidence.getD "medium")) := by
  refine ⟨fun hhigh hcap => ?_, fun hhigh hcap => ?_, fun hlm => ?_⟩
  · simp only [parse_response, hhigh, if_true]
    rw [if_pos hcap]
  · simp only [parse_response, hhigh, if_true]
    rw [if_neg hcap]
  · have hne : to_lower (resp.confidence.getD "medium") ≠ "high" := by
      rcases hlm with h | h <;> rw [h] <;> decide
    simp only [parse_response]
    rw [if_neg hne]

/-- Claim C1 witness: a proposed "high" with 5 total gaps is capped to
"medium"; a proposed "high" with 1 gap stays "high"; a proposed "Low" is
returned as "low" unchanged. -/
theorem parse_response_confidence_spec_witness :
    ((parse_response { confidence := some "high" } none {}
        (some { original_question := "q",
                unknowns := [{ description := "u1", importance := "medium" },
                             { description := "u2", importance := "medium" },
                             { description := "u3", importance := "medium" }],
                conflicts := [],
                assumptions := [{ description := "a1", risk := "r1" },
                                { description := "a2", risk := "r2" }] })).confidence
      = "medium") ∧
    ((parse_response { confidence := some "high" } none {}
        (some { original_question := "q",
                unknowns := [{ description := "u1", importance := "medium" }] })).confidence
      = "high") ∧
    ((parse_response { confidence := some "Low" } none {}
        (some { original_question := "q",
                unknowns := [{ description := "u1", importance := "high" },
                             { description := "u2", importance := "high" },
                             { description := "u3", importance := "high" },
                             { description := "u4", importance := "high" },
                             { description := "u5", importance := "high" }] })).confidence
      = "low") := by
  refine ⟨?_, ?_, ?_⟩
  · exact (parse_response_confidence_spec _ _ _ _).1 rfl (by decide)
  · exact (parse_response_confidence_spec _ _ _ _).2.1 rfl (by decide)
  · exact (parse_response_confidence_spec _ _ _ _).2.2 (Or.inl rfl)

/-- Claim C8: input-validation atomicity.  If the stripped question is
empty, shorter than 5 characters or longer than 10000 characters,
`create_session` raises an input-validation error and the session store is
unchanged; otherwise it returns a new session holding the cleaned question
and stores it under the fresh id. -/
theorem create_session_spec (mgr : SessionManager) (fresh_id : String) (now : ℤ)
    (q : String) :
    (((strip q) = "" ∨ (strip q).length < MIN_QUESTION_LENGTH ∨
        (strip q).length > MAX_QUESTION_LENGTH) →
      (∃ e, (create_session mgr fresh_id now q).1 = .error e) ∧
      (create_session mgr fresh_id now q).2 = mgr) ∧
    ((strip q) ≠ "" → (strip q).length ≥ MIN_QUESTION_LENGTH →
      (strip q).length ≤ MAX_QUESTION_LENGTH →
      (create_session mgr fresh_id now q).1 =
        .ok { session_id := fresh_id, question := strip q, created_at := now } ∧
      (create_session mgr fresh_id now q).2.sessions =
        dict_insert fresh_id
          { session_id := fresh_id, question := strip q, created_at := now }
          mgr.sessions) := by
  constructor
  · intro hbad
    unfold create_session validate_input
    rcases hbad with h | h | h
    · rw [if_pos h]
      exact ⟨⟨.empty_input, rfl⟩, rfl⟩
    · by_cases hemp : strip q = ""
      · rw [if_pos hemp]
        exact ⟨⟨.empty_input, rfl⟩, rfl⟩
      · rw [if_neg hemp, if_pos h]
        exact ⟨⟨.too_short (strip q).length, rfl⟩, rfl⟩
    · have hlen : ¬ (strip q).length < MIN_QUESTION_LENGTH := by
        unfold MIN_QUESTION_LENGTH MAX_QUESTION_LENGTH at *
        omega
      by_cases hemp : strip q = ""
      · rw [if_pos hemp]
        exact ⟨⟨.empty_input, rfl⟩, rfl⟩
      · rw [if_neg hemp, if_neg hlen, if_pos h]
        exact ⟨⟨.too_long (strip q).length, rfl⟩, rfl⟩
  · intro hne hmin hmax
    unfold create_session validate_input
    rw [if_neg hne, if_neg (by omega), if_neg (by omega)]
    exact ⟨rfl, rfl⟩

/-- Claim C8 witness: creating a session for "AI?" (3 characters after
stripping) fails and leaves an empty manager empty, while a valid question
is stored under the fresh id. -/
theorem create_session_spec_witness :
    ((∃ e, (create_session { sessions := [] } "run_2025_01_01_abcd1234" 0 "AI?").1
        = .error e) ∧
      (create_session { sessions := [] } "run_2025_01_01_abcd1234" 0 "AI?").2
        = { sessions := [] }) ∧
    (create_session { sessions := [] } "run_2025_01_01_abcd1234" 0
        " Should we adopt AI agents? ").1 =
      .ok { session_id := "run_2025_01_01_abcd1234",
            question := "Should we adopt AI agents?", created_at := 0 } := by
  constructor
  · exact (create_session_spec { sessions := [] } "run_2025_01_01_abcd1234" 0 "AI?").1
      (Or.inr (Or.inl (by decide)))
  · have h := ((create_session_spec { sessions := [] } "run_2025_01_01_abcd1234" 0
      " Should we adopt AI agents? ").2 (by decide) (by decide) (by decide)).1
    rw [h]
    rfl

/-- Recency is always between 0.2 and 1. -/
theorem score_recency_bounds (now : ℤ) (s : Source) :
    0.2 ≤ score_recency now s ∧ score_recency now s ≤ 1 := by
  unfold score_recency
  cases s.published_date with
  | none => norm_num
  | some d =>
    simp only [OPTIMAL_AGE_MONTHS, MAX_AGE_MONTHS]
    split_ifs with h1 h2
    · norm_num
    · norm_num
    · push_neg at h1 h2
      constructor <;> [linarith; linarith]

/-- Credibility is always between 0 and 1. -/
theorem score_credibility_bounds (s : Source) :
    0 ≤ score_credibility s ∧ score_credibility s ≤ 1 := by
  unfold score_credibility
  dsimp only
  split_ifs <;> norm_num

/-- Evidence richness is always between 0 and 1. -/
theorem score_evidence_bounds (s : Source) (claims : List Claim) :
    0 ≤ score_evidence s claims ∧ score_evidence s claims ≤ 1 := by
  unfold score_evidence
  dsimp only
  constructor
  · refine le_min ?_ (by norm_num)
    split_ifs <;> norm_num
  · exact (min_le_right _ _).trans (by norm_num)

/-- Claim density is always between 0.3 and 1. -/
theorem score_claims_bounds (claims : List Claim) :
    0.3 ≤ score_claims claims ∧ score_claims claims ≤ 1 := by
  cases claims with
  | nil => unfold score_claims; norm_num
  | cons a l =>
    unfold score_claims
    simp only [List.isEmpty_cons, Bool.false_eq_true, if_false]
    have hlen : (0 : ℚ) < ((a :: l).length : ℚ) := by
      exact_mod_cast Nat.succ_pos l.length
    have hcount : ((a :: l).countP (fun c => c.is_actionable) : ℚ) ≤ ((a :: l).length : ℚ) := by
      exact_mod_cast List.countP_le_length _
    have hf0 : (0 : ℚ) ≤ ((a :: l).countP (fun c => c.is_actionable) : ℚ) / ((a :: l).length : ℚ) :=
      div_nonneg (by positivity) (le_of_lt hlen)
    have hf1 : ((a :: l).countP (fun c => c.is_actionable) : ℚ) / ((a :: l).length : ℚ) ≤ 1 :=
      (div_le_one hlen).mpr hcount
    split_ifs <;> constructor <;> linarith

/-- Claim C9: score bounds invariant.  For every source and claim list each
of the four sub-scores lies in [0, 1], the claim-density score is at least
0.3 and the recency score at least 0.2, and the weighted total score
(weights 0.25 + 0.35 + 0.25 + 0.15 = 1) lies in [0, 1]. -/
theorem score_bounds_spec (now : ℤ) (s : Source) (claims : List Claim) :
    (0.2 ≤ score_recency now s ∧ score_recency now s ≤ 1) ∧
    (0 ≤ score_credibility s ∧ score_credibility s ≤ 1) ∧
    (0 ≤ score_evidence s claims ∧ score_evidence s claims ≤ 1) ∧
    (0.3 ≤ score_claims claims ∧ score_claims claims ≤ 1) ∧
    WEIGHT_RECENCY + WEIGHT_CREDIBILITY + WEIGHT_EVIDENCE + WEIGHT_CLAIMS = 1 ∧
    (0 ≤ (score_source now s claims).total_score ∧
      (score_source now s claims).total_score ≤ 1) := by
  have hr := score_recency_bounds now s
  have hc := score_credibility_bounds s
  have he := score_evidence_bounds s claims
  have hcl := score_claims_bounds claims
  refine ⟨hr, hc, he, hcl, by norm_num [WEIGHT_RECENCY, WEIGHT_CREDIBILITY,
    WEIGHT_EVIDENCE, WEIGHT_CLAIMS], ?_⟩
  simp only [score_source, WEIGHT_RECENCY, WEIGHT_CREDIBILITY, WEIGHT_EVIDENCE, WEIGHT_CLAIMS]
  constructor <;> nlinarith [hr.1, hr.2, hc.1, hc.2, he.1, he.2, hcl.1, hcl.2]

/-- Forget the assigned rank of a `SourceScore` (reset it to its
pre-ranking default 0); used to compare ranked output with freshly scored
input. -/
def erase_rank (s : SourceScore) : SourceScore := { s with rank := 0 }

theorem assign_ranks_map_erase : ∀ (n : Nat) (l : List SourceScore),
    (assign_ranks n l).map erase_rank = l.map erase_rank
  | _, [] => rfl
  | n, s :: t => by
    simp only [assign_ranks, List.map_cons, assign_ranks_map_erase (n + 1) t]
    rfl

theorem assign_ranks_map_rank : ∀ (n : Nat) (l : List SourceScore),
    (assign_ranks n l).map (fun x => x.rank) = List.range' n l.length
  | _, [] => rfl
  | n, s :: t => by
    simp only [assign_ranks, List.map_cons, List.length_cons,
      assign_ranks_map_rank (n + 1) t]
    rfl

theorem mem_assign_ranks : ∀ {n : Nat} {l : List SourceScore} {b : SourceScore},
    b ∈ assign_ranks n l → ∃ a ∈ l, ∃ m, b = { a with rank := m }
  | _, [], b, h => absurd h (List.not_mem_nil b)
  | n, s :: t, b, h => by
    rcases List.mem_cons.mp h with rfl | h2
    · exact ⟨s, List.mem_cons_self s t, n, rfl⟩
    · obtain ⟨a, ha, m, rfl⟩ := mem_assign_ranks h2
      exact ⟨a, List.mem_cons_of_mem _ ha, m, rfl⟩

theorem assign_ranks_pairwise : ∀ (n : Nat) (l : List SourceScore),
    l.Pairwise rank_order → (assign_ranks n l).Pairwise rank_order
  | _, [], _ => List.Pairwise.nil
  | n, s :: t, h => by
    obtain ⟨hs, ht⟩ := List.pairwise_cons.mp h
    refine List.pairwise_cons.mpr ⟨?_, assign_ranks_pairwise (n + 1) t ht⟩
    intro b hb
    obtain ⟨a, ha, m, rfl⟩ := mem_assign_ranks hb
    exact hs a ha

theorem filter_orderedInsert (q : ℚ) (a : SourceScore) :
    ∀ l : List SourceScore,
      (List.orderedInsert rank_order a l).filter (fun x => decide (x.total_score = q)) =
        if a.total_score = q then
          a :: l.filter (fun x => decide (x.total_score = q))
        else l.filter (fun x => decide (x.total_score = q))
  | [] => by
    by_cases h : a.total_score = q <;> simp [List.orderedInsert, List.filter, h]
  | b :: t => by
    by_cases hab : rank_order a b
    · simp only [List.orderedInsert, if_pos hab]
      by_cases ha : a.total_score = q <;> simp [List.filter_cons, ha]
    · simp only [List.orderedInsert, if_neg hab]
      have hlt : a.total_score < b.total_score := not_le.mp hab
      have ihb := filter_orderedInsert q a t
      by_cases ha : a.total_score = q
      · have hb : ¬ b.total_score = q := fun hbq => absurd (hbq.trans ha.symm ▸ hlt) (by
          rw [ha] at hlt
          exact absurd hlt (by rw [hbq]; exact lt_irrefl q))
        simp [List.filter_cons, hb, ihb, ha]
      · by_cases hb : b.total_score = q <;> simp [List.filter_cons, hb, ihb, ha]

theorem filter_insertionSort (q : ℚ) :
    ∀ l : List SourceScore,
      (List.insertionSort rank_order l).filter (fun x => decide (x.total_score = q)) =
        l.filter (fun x => decide (x.total_score = q))
  | [] => rfl
  | a :: t => by
    simp only [List.insertionSort]
    rw [filter_orderedInsert q a (List.insertionSort rank_order t)]
    by_cases ha : a.total_score = q <;>
      simp [List.filter_cons, ha, filter_insertionSort q t]

theorem assign_ranks_filter_map_erase (q : ℚ) : ∀ (n : Nat) (l : List SourceScore),
    ((assign_ranks n l).filter (fun x => decide (x.total_score = q))).map erase_rank =
      (l.filter (fun x => decide (x.total_score = q))).map erase_rank
  | _, [] => rfl
  | n, s :: t => by
    by_cases h : s.total_score = q <;>
      simp [assign_ranks, List.filter_cons, h, erase_rank,
        assign_ranks_filter_map_erase q (n + 1) t]

theorem erase_rank_score_source (now : ℤ) (s : Source) (claims : List Claim) :
    erase_rank (score_source now s claims) = score_source now s claims := rfl

/-- Claim C2: ranking output order.  For every source list and claims
mapping, `rank_sources` returns the scored sources (up to the assigned rank
field) sorted in descending order of total score; the sort is stable, so
sources of equal total score keep their relative input order (for every
score value the ranked sublist with that score equals the scored input
sublist with that score); and the rank fields are exactly 1, ..., n in
output order. -/
theorem rank_sources_spec (now : ℤ) (sources : List Source)
    (claims_by_source : String → List Claim) :
    List.Perm ((rank_sources now sources claims_by_source).ranked_sources.map erase_rank)
        (sources.map (fun s => score_source now s (claims_by_source s.url))) ∧
    (rank_sources now sources claims_by_source).ranked_sources.Pairwise
      (fun a b => b.total_score ≤ a.total_score) ∧
    (∀ q : ℚ,
      ((rank_sources now sources claims_by_source).ranked_sources.filter
          (fun x => decide (x.total_score = q))).map erase_rank =
        (sources.map (fun s => score_source now s (claims_by_source s.url))).filter
          (fun x => decide (x.total_score = q))) ∧
    (rank_sources now sources claims_by_source).ranked_sources.map (fun x => x.rank) =
      List.range' 1 sources.length := by
  have herase : ∀ x ∈ sources.map (fun s => score_source now s (claims_by_source s.url)),
      erase_rank x = x := by
    intro x hx
    obtain ⟨s, _, rfl⟩ := List.mem_map.mp hx
    rfl
  simp only [rank_sources]
  refine ⟨?_, ?_, ?_, ?_⟩
  · rw [assign_ranks_map_erase]
    refine List.Perm.trans ((List.perm_insertionSort rank_order _).map erase_rank) ?_
    rw [List.map_congr_left herase, List.map_id']
  · exact assign_ranks_pairwise 1 _ (List.sorted_insertionSort rank_order _)
  · intro q
    rw [assign_ranks_filter_map_erase, filter_insertionSort,
      List.map_congr_left (fun x hx => herase x (List.mem_of_mem_filter hx)), List.map_id']
  · rw [assign_ranks_map_rank, List.length_insertionSort, List.length_map]

/-- The deduplication loop keeps every previously seen url in the seen
set, records the urls it emits, emits each url at most once, and emits no
url that was already seen. -/
theorem dedup_sources_spec : ∀ (l : List Source) (seen : List String),
    (∀ x ∈ seen, x ∈ (dedup_sources seen l).1) ∧
    (∀ s ∈ (dedup_sources seen l).2, s.url ∈ (dedup_sources seen l).1) ∧
    ((dedup_sources seen l).2.map (fun s => s.url)).Nodup ∧
    (∀ s ∈ (dedup_sources seen l).2, s.url ∉ seen)
  | [], seen => by simp [dedup_sources]
  | s :: rest, seen => by
    by_cases h : s.url ∈ seen
    · simp only [dedup_sources, if_pos h]
      exact dedup_sources_spec rest seen
    · have ih := dedup_sources_spec rest (s.url :: seen)
      simp only [dedup_sources, if_neg h]
      rcases hd : dedup_sources (s.url :: seen) rest with ⟨se, u⟩
      rw [hd] at ih
      obtain ⟨ih1, ih2, ih3, ih4⟩ := ih
      refine ⟨?_, ?_, ?_, ?_⟩
      · intro x hx
        exact ih1 x (List.mem_cons_of_mem _ hx)
      · intro t ht
        rcases List.mem_cons.mp ht with rfl | ht2
        · exact ih1 t.url (List.mem_cons_self _ _)
        · exact ih2 t ht2
      · refine List.Pairwise.cons ?_ ih3
        intro x hx
        obtain ⟨b, hb, rfl⟩ := List.mem_map.mp hx
        intro hbs
        exact ih4 b hb (hbs ▸ List.mem_cons_self _ _)
      · intro t ht
        rcases List.mem_cons.mp ht with rfl | ht2
        · exact h
        · exact fun hts => ih4 t ht2 (List.mem_cons_of_mem _ hts)

/-- Loop invariant of `search_all`: if the aggregated sources have distinct
urls, all of them already in the seen set, the loop keeps the urls
distinct. -/
theorem search_all_go_nodup (single : String → List Source) (max_total : Nat) :
    ∀ (sqs : List String) (seen : List String) (rbq : List (String × SearchResults))
      (all_sources : List Source),
      ((all_sources.map fun s => s.url).Nodup) →
      (∀ s ∈ all_sources, s.url ∈ seen) →
      ((search_all_go single max_total sqs seen rbq all_sources).2.map
        fun s => s.url).Nodup
  | [], _, _, _, hnd, _ => hnd
  | sq :: rest, seen, rbq, all, hnd, hsub => by
    simp only [search_all_go]
    rcases hd : dedup_sources seen (single sq) with ⟨se, u⟩
    have ih := dedup_sources_spec (single sq) seen
    rw [hd] at ih
    obtain ⟨ih1, ih2, ih3, ih4⟩ := ih
    have hnd2 : ((all ++ u).map fun s => s.url).Nodup := by
      rw [List.map_append]
      refine List.Nodup.append hnd ih3 ?_
      intro x hx1 hx2
      obtain ⟨a, ha, rfl⟩ := List.mem_map.mp hx1
      obtain ⟨b, hb, hab⟩ := List.mem_map.mp hx2
      exact ih4 b hb (hab ▸ hsub a ha)
    have hsub2 : ∀ s ∈ all ++ u, s.url ∈ se := by
      intro s hs
      rcases List.mem_append.mp hs with h1 | h2
      · exact ih1 _ (hsub s h1)
      · exact ih2 s h2
    by_cases hlen : (all ++ u).length ≥ max_total
    · rw [if_pos hlen]
      exact hnd2
    · rw [if_neg hlen]
      exact search_all_go_nodup single max_total rest se _ _ hnd2 hsub2

/-- Claim C7: search deduplication invariant.  For every sub-question list
and every behavior of the per-question search (`single` abstracts what
`search_single` returns for each sub-question), the urls of the
`all_sources` list returned by `search_all` are pairwise distinct, even
when the same url is produced for two different sub-questions. -/
theorem search_all_dedup_spec (cfg : SearchConfig) (single : String → List Source)
    (sub_questions : List String) :
    ((search_all cfg single sub_questions).all_sources.map fun s => s.url).Nodup := by
  unfold search_all
  rcases hgo : search_all_go single cfg.max_total_sources sub_questions [] [] []
    with ⟨rbq, all⟩
  have h := search_all_go_nodup single cfg.max_total_sources sub_questions [] [] []
    (by simp) (by simp)
  rw [hgo] at h
  simp only [hgo]
  exact List.Nodup.sublist (List.Sublist.map _ (List.take_sublist _ _)) h


/-- Every source `classify_results` puts in its first component is
reputable and every source in its second component is not. -/
theorem classify_results_reputable (cfg : SearchConfig) (dp : String → Option ℤ)
    (sq : String) : ∀ raw : List RawResult,
    (∀ s ∈ (classify_results cfg dp sq raw).1, is_reputable_source cfg s.url = true) ∧
    (∀ s ∈ (classify_results cfg dp sq raw).2, is_reputable_source cfg s.url = false)
  | [] => by simp [classify_results]
  | r :: rest => by
    obtain ⟨ih1, ih2⟩ := classify_results_reputable cfg dp sq rest
    simp only [classify_results]
    rcases hc : classify_results cfg dp sq rest with ⟨rep, oth⟩
    rw [hc] at ih1 ih2
    by_cases hv : is_valid_source cfg (r.url.getD (r.link.getD "")) (r.title.getD "") = true
    · rw [if_pos hv]
      by_cases hr : is_reputable_source cfg (r.url.getD (r.link.getD "")) = true
      · rw [if_pos hr]
        refine ⟨?_, ih2⟩
        intro s hs
        rcases List.mem_cons.mp hs with rfl | hs2
        · exact hr
        · exact ih1 s hs2
      · rw [if_neg hr]
        refine ⟨ih1, ?_⟩
        intro s hs
        rcases List.mem_cons.mp hs with rfl | hs2
        · exact Bool.not_eq_true _ ▸ Bool.of_not_eq_true hr
        · exact ih2 s hs2
    · rw [if_neg hv]
      exact ⟨ih1, ih2⟩

/-- Claim C10: per-question source cap.  For every sub-question and every
list of raw search results, `search_single` returns at most 5 sources and
every source classified as reputable precedes every non-reputable one, even
though the default `max_results_per_query` is 7. -/
theorem search_single_cap_spec (cfg : SearchConfig) (dp : String → Option ℤ)
    (sq : String) (raw : List RawResult) :
    ({} : SearchConfig).max_results_per_query = 7 ∧
    (search_single cfg dp sq raw).sources.length ≤ 5 ∧
    (search_single cfg dp sq raw).sources.Pairwise
      (fun a b => is_reputable_source cfg b.url = true →
        is_reputable_source cfg a.url = true) := by
  obtain ⟨h1, h2⟩ := classify_results_reputable cfg dp sq raw
  unfold search_single
  rcases hc : classify_results cfg dp sq raw with ⟨rep, oth⟩
  rw [hc] at h1 h2
  simp only
  refine ⟨trivial, ?_, ?_⟩
  · exact List.length_take_le _ _
  · refine List.Pairwise.sublist (List.take_sublist _ _) ?_
    rw [List.pairwise_append]
    refine ⟨?_, ?_, ?_⟩
    · exact List.pairwise_of_forall_mem_list fun a ha b _ hb => h1 a ha
    · refine List.pairwise_of_forall_mem_list fun a _ b hb hrb => ?_
      rw [h2 b hb] at hrb
      exact absurd hrb (by simp)
    · intro a ha b _ _
      exact h1 a ha

/-- Rank assignment leaves the embedded `Source` records untouched. -/
theorem assign_ranks_map_source : ∀ (n : Nat) (l : List SourceScore),
    (assign_ranks n l).map (fun x => x.source) = l.map (fun x => x.source)
  | _, [] => rfl
  | n, s :: t => by
    simp only [assign_ranks, List.map_cons, assign_ranks_map_source (n + 1) t]

/-- Claim C6 counterexample: the ranking stage never writes
`Source.credibility_score`.  Ranking a concrete source returns the `Source`
record completely unchanged -- its `credibility_score` field is still the
constructed 0.0 -- while the computed credibility sub-score (0.4 here) is
stored only on the separate `SourceScore` record.  So the claim that
`Source.credibility_score` "is set exactly once by the ranking stage" fails
on this input. -/
theorem source_credibility_not_written :
    ((rank_sources 0
        [{ url := "https://example.com/a", title := "A title", snippet := "s",
           sub_question := "q", domain := "example.com" }]
        (fun _ => [])).ranked_sources.map fun x => x.source) =
      [{ url := "https://example.com/a", title := "A title", snippet := "s",
         sub_question := "q", domain := "example.com" }] ∧
    ((rank_sources 0
        [{ url := "https://example.com/a", title := "A title", snippet := "s",
           sub_question := "q", domain := "example.com" }]
        (fun _ => [])).ranked_sources.map fun x => x.source.credibility_score) = [0.0] ∧
    ((rank_sources 0
        [{ url := "https://example.com/a", title := "A title", snippet := "s",
           sub_question := "q", domain := "example.com" }]
        (fun _ => [])).ranked_sources.map fun x => x.credibility_score) = [0.4] :=
  ⟨rfl, rfl, rfl⟩

/-- Claim C6 amended: over one pipeline run every field of a `Source` is
written at most once after construction.  The ranking stage writes no
`Source` field at all (in particular `Source.credibility_score` keeps its
constructed value; the credibility sub-score lives on the `SourceScore`
record), and the extraction stage writes only `Source.content`, at most
once -- not at all when the fetch fails and the snippet is empty. -/
theorem source_write_once_spec (now : ℤ) (sources : List Source)
    (claims_by_source : String → List Claim) (max_content_length preview_length : Nat)
    (fetched : Except String (Option String)) (src : Source) :
    (∀ (s : Source) (claims : List Claim), (score_source now s claims).source = s) ∧
    List.Perm ((rank_sources now sources claims_by_source).ranked_sources.map
      fun x => x.source) sources ∧
    ({ (extract_single max_content_length preview_length fetched src).source with
        content := src.content } = src) ∧
    (src.snippet = "" → ∀ e : String,
      (extract_single max_content_length preview_length (.error e) src).source = src) := by
  refine ⟨fun s claims => rfl, ?_, ?_, ?_⟩
  · simp only [rank_sources]
    rw [assign_ranks_map_source]
    refine List.Perm.trans ((List.perm_insertionSort rank_order _).map fun x => x.source) ?_
    rw [List.map_map]
    refine List.Perm.of_eq ?_
    have hid : ∀ s ∈ sources,
        ((fun x => x.source) ∘ fun s2 => score_source now s2 (claims_by_source s2.url)) s
          = id s := fun s _ => rfl
    rw [List.map_congr_left hid, List.map_id]
  · unfold extract_single fallback_to_snippet
    rcases fetched with e | oc
    · dsimp only
      split_ifs <;> rfl
    · rcases oc with _ | c
      · dsimp only
        split_ifs <;> rfl
      · dsimp only
        split_ifs <;> rfl
  · intro hsn e
    unfold extract_single fallback_to_snippet
    dsimp only
    rw [if_neg (by simp [hsn])]

/-- Claim C6 amended witness: a failed fetch on a source with an empty
snippet leaves the source record untouched. -/
theorem source_write_once_spec_witness :
    (extract_single 15000 400 (Except.error "Request timed out")
      { url := "u", title := "t", snippet := "", sub_question := "q" }).source =
      { url := "u", title := "t", snippet := "", sub_question := "q" } :=
  (source_write_once_spec 0 [] (fun _ => []) 15000 400
    (Except.error "Request timed out") _).2.2.2 rfl "Request timed out"

end Agent
